import Mathlib

/-!
Verification development for the XtalOpt evolutionary crystal-structure
search engine.  The C++ sources (xtalopt.cpp, substrate.cpp, tracker.h,
sshmanager.cpp) are shallowly embedded: doubles become exact rationals,
Qt strings become Lean strings or character lists, and in-place mutation
becomes explicit state passing.  External library calls (OpenBabel cell
geometry, spglib space-group detection, Qt settings parsing) are modelled
as oracle inputs or explicit attributes, as noted at each definition.
-/

namespace Substrate

/-- Index-swap on a list of rationals, used to embed the in-place swaps of
`Substrate::sortConformers`. -/
def swapIdx (l : List ℚ) (i j : ℕ) : List ℚ :=
  match l.get? i, l.get? j with
  | some x, some y => (l.set i y).set j x
  | _, _ => l

/-- Inner loop of `Substrate::sortConformers`: for each `j` in the given
index list, swap entries `i` and `j` whenever `energy(j) < energy(i)`. -/
def innerSort (i : ℕ) : List ℕ → List ℚ → List ℚ
  | [], l => l
  | j :: rest, l =>
      innerSort i rest (if l.getD j 0 < l.getD i 0 then swapIdx l i j else l)

/-- Embedding of `Substrate::sortConformers` (selection sort on conformer
energies; the conformer coordinates tag along in the source and are dropped
here). -/
def sortConformers (l : List ℚ) : List ℚ :=
  (List.range l.length).foldl
    (fun acc i => innerSort i ((List.range l.length).drop i) acc) l

/-- Cumulative-sum loop at the end of `Substrate::generateProbabilities`:
`sum += probs[i]; probs[i] = sum`. -/
def cumsum : List ℚ → ℚ → List ℚ
  | [], _ => []
  | x :: xs, acc => (acc + x) :: cumsum xs (acc + x)

/-- Spread computed by `Substrate::generateProbabilities`:
`highest - lowest + (highest - lowest) / numConformers`, with
`lowest = energy(0)` and `highest = energy(numConformers - 1)`. -/
def spreadOf (es : List ℚ) : ℚ :=
  (es.getLastD 0 - es.headD 0) + (es.getLastD 0 - es.headD 0) / (es.length : ℚ)

/-- First loop of the pipeline: `(energy(i) - lowest) / spread` for each
conformer.  Division is exact rational division (C++ doubles idealized). -/
def probsStage1 (es : List ℚ) : List ℚ :=
  es.map (fun e => (e - es.headD 0) / spreadOf es)

/-- Second loop: each value is subtracted from one. -/
def probsStage2 (es : List ℚ) : List ℚ :=
  (probsStage1 es).map (fun p => 1 - p)

/-- Third loop: normalization by the sum of the inverted weights. -/
def probsStage3 (es : List ℚ) : List ℚ :=
  (probsStage2 es).map (fun p => p / (probsStage2 es).sum)

/-- Probability-list pipeline of `Substrate::generateProbabilities` after the
sort: spread, raw weights, inversion, normalization, cumulative sum. -/
def probsFromSorted (es : List ℚ) : List ℚ :=
  cumsum (probsStage3 es) 0

/-- Embedding of `Substrate::generateProbabilities`: singleton conformer lists
short-circuit to `[1.0]`; otherwise the list is sorted and fed to the
probability pipeline. -/
def generateProbabilities (es : List ℚ) : List ℚ :=
  if es.length = 1 then [1] else probsFromSorted (sortConformers es)

/-- Index-selection loop documented in `Substrate::generateProbabilities` and
coded in `Substrate::getRandomConformerIndex`: the smallest `ind` with
`r < probs[ind]`, or the list length when the loop falls through. -/
def chosenIndex : List ℚ → ℚ → ℕ
  | [], _ => 0
  | p :: ps, r => if r < p then 0 else chosenIndex ps r + 1

/-- Truncation toward zero, the semantics of the C++ implicit
`double → int` conversion. -/
def truncQ (v : ℚ) : ℤ :=
  if 0 ≤ v then ⌊v⌋ else ⌈v⌉

/-- Embedding of `Substrate::getRandomConformerIndex`: the loop computes the
chosen index `ind`, but the function body ends in `return r`, so the value
produced is the random draw truncated to `int`. -/
def getRandomConformerIndex (probs : List ℚ) (r : ℚ) : ℤ :=
  let _ind := chosenIndex probs r
  truncQ r

/-- Probability list from the worked example in the source comment:
0.4, 0.68, 0.92, 1, 1. -/
def demoProbs : List ℚ := [2/5, 17/25, 23/25, 1, 1]

end Substrate

namespace XtalOpt

/-- Lifecycle states of a candidate structure, as listed in the engine's data
model (`Xtal::State`). -/
inductive XState where
  | Empty
  | WaitingForOptimization
  | Submitted
  | InProcess
  | StepOptimized
  | Optimized
  | Duplicate
  | Err
  | Killed
  | Removed
  deriving DecidableEq, Repr

/-- Snapshot taken by `XtalOpt::checkForDuplicates_` for one tracked
structure: its fingerprint (spacegroup, enthalpy, volume) together with the
status, generation and id number read under the structure's lock. -/
structure DupEntry where
  spacegroup : ℕ
  enthalpy : ℚ
  volume : ℚ
  state : XState
  gen : ℕ
  idNumber : ℕ
  deriving DecidableEq, Repr

/-- Duplicate tolerances inserted into the `limits` hash by
`XtalOpt::checkForDuplicates_`. -/
structure DupConfig where
  tol_enthalpy : ℚ
  tol_volume : ℚ
  deriving DecidableEq, Repr

/-- Per-structure outcome of the scan: the (possibly updated) status and the
duplicate string set by `setDuplicateString`. -/
abbrev Mark := XState × Option String

/-- The `"GxI"` string `QString("%1x%2").arg(generation).arg(idNumber)`. -/
def gxiString (e : DupEntry) : String :=
  toString e.gen ++ "x" ++ toString e.idNumber

/-- Inner `j` loop of `XtalOpt::checkForDuplicates_` for a fixed outer index
`i` with snapshot entry `ei`: non-`Optimized` or zero/mismatched-spacegroup
entries are skipped, fingerprint limits are checked, and on a match the
higher-enthalpy structure is marked (`break`ing out when `i` itself is
marked). -/
def innerScan (cfg : DupConfig) (es : List DupEntry) (i : ℕ) (ei : DupEntry) :
    List ℕ → List Mark → List Mark
  | [], m => m
  | j :: rest, m =>
      match es.get? j with
      | none => innerScan cfg es i ei rest m
      | some ej =>
          if ej.state ≠ XState.Optimized then innerScan cfg es i ei rest m
          else if ej.spacegroup = 0 then innerScan cfg es i ei rest m
          else if ei.spacegroup ≠ ej.spacegroup then innerScan cfg es i ei rest m
          else if ¬ (|ei.enthalpy - ej.enthalpy| ≤ cfg.tol_enthalpy ∧
                     |ei.volume - ej.volume| ≤ cfg.tol_volume) then
            innerScan cfg es i ei rest m
          else if ej.enthalpy < ei.enthalpy then
            m.set i (XState.Duplicate, some (gxiString ej))
          else
            innerScan cfg es i ei rest (m.set j (XState.Duplicate, some (gxiString ei)))

/-- Outer `i` loop of `XtalOpt::checkForDuplicates_` over the snapshot. -/
def outerScan (cfg : DupConfig) (es : List DupEntry) :
    List ℕ → List Mark → List Mark
  | [], m => m
  | i :: rest, m =>
      match es.get? i with
      | none => outerScan cfg es rest m
      | some ei =>
          if ei.state ≠ XState.Optimized then outerScan cfg es rest m
          else if ei.spacegroup = 0 then outerScan cfg es rest m
          else
            outerScan cfg es rest
              (innerScan cfg es i ei ((List.range es.length).drop (i + 1)) m)

/-- Embedding of `XtalOpt::checkForDuplicates_`: snapshot the fingerprints
and statuses, then run the pair scan; the result is the status and duplicate
string finally carried by each structure. -/
def checkForDuplicatesRun (cfg : DupConfig) (es : List DupEntry) : List Mark :=
  outerScan cfg es (List.range es.length) (es.map fun e => (e.state, none))

/-- Scenario-S4 snapshot entry: spacegroup 225, enthalpy -10, volume 50. -/
def dupA : DupEntry := ⟨225, -10, 50, XState.Optimized, 1, 1⟩

/-- Scenario-S4 snapshot entry: spacegroup 225, enthalpy -10.0001,
volume 50.0005. -/
def dupB : DupEntry := ⟨225, -10001 / 1000, 100001 / 2000, XState.Optimized, 1, 2⟩

/-- Scenario-S4 snapshot list. -/
def dupEs : List DupEntry := [dupA, dupB]

/-- Initial marks for the scenario-S4 snapshot. -/
def dupM0 : List Mark := dupEs.map fun e => (e.state, none)

/-- Scheduler-side state relevant to the duplicate-scan trigger: the
`isStarting` flag consulted by `XtalOpt::checkForDuplicates` and the number
of scans currently scheduled or running via `QtConcurrent::run`. -/
structure SchedulerState where
  isStarting : Bool
  pendingScans : ℕ
  deriving DecidableEq, Repr

/-- Embedding of the slot `XtalOpt::checkForDuplicates`, which the
constructor connects to the tracker's `newStructureAdded` signal: when
`isStarting` is set the trigger returns immediately; otherwise a new
concurrent scan is scheduled unconditionally. -/
def checkForDuplicatesTrigger (s : SchedulerState) : SchedulerState :=
  if s.isStarting then s else { s with pendingScans := s.pendingScans + 1 }

/-- Unit-cell parameters `(a, b, c, alpha, beta, gamma)`. -/
structure Cell where
  a : ℚ
  b : ℚ
  c : ℚ
  alpha : ℚ
  beta : ℚ
  gamma : ℚ
  deriving DecidableEq, Repr

/-- One atom: atomic number and cartesian position. -/
structure Atom where
  atomicNum : ℕ
  x : ℚ
  y : ℚ
  z : ℚ
  deriving DecidableEq, Repr

/-- Candidate state as manipulated by xtalopt.cpp.  `volume` and
`shortestIAD` are carried as attributes because the geometric computations
(cell determinant, interatomic distances) live in the external Xtal/OpenBabel
library and are irrational in general. -/
structure Xtal where
  cell : Cell
  volume : ℚ
  atoms : List Atom
  shortestIAD : Option ℚ
  status : XState
  gen : ℕ
  idNumber : ℕ
  index : ℕ
  parents : String
  energy : Option ℚ
  enthalpy : Option ℚ
  pv : ℚ
  currentOptStep : ℕ
  failCount : ℕ
  spacegroup : ℕ
  locpath : String
  rempath : String
  deriving DecidableEq, Repr

/-- Session configuration fields of the `XtalOpt` class read by the embedded
functions. -/
structure Config where
  a_min : ℚ
  a_max : ℚ
  b_min : ℚ
  b_max : ℚ
  c_min : ℚ
  c_max : ℚ
  alpha_min : ℚ
  alpha_max : ℚ
  beta_min : ℚ
  beta_max : ℚ
  gamma_min : ℚ
  gamma_max : ℚ
  using_fixed_volume : Bool
  vol_fixed : ℚ
  vol_min : ℚ
  vol_max : ℚ
  using_shortestInteratomicDistance : Bool
  shortestInteratomicDistance : ℚ
  filePath : String
  rempathBase : String
  deriving DecidableEq, Repr

/-- Modelled from the spec: `Xtal::setVolume` rescales the unit cell
isotropically to the target volume (library code outside src); the embedded
state tracks the resulting volume attribute. -/
def setVolume (x : Xtal) (v : ℚ) : Xtal :=
  { x with volume := v }

/-- Pinned-parameter target computed in `XtalOpt::checkXtal`: the fixed value
when `min == max`, otherwise 0 (the source's flag for "unpinned"). -/
def pinned (mn mx : ℚ) : ℚ :=
  if mn = mx then mn else 0

/-- Modelled from the spec: `Xtal::rescaleCell` (library code outside src)
assigns each lattice parameter whose argument is nonzero its fixed value;
zero arguments leave the parameter untouched. -/
def rescaleCell (x : Xtal) (a b c al be ga : ℚ) : Xtal :=
  { x with cell :=
    { a := if a = 0 then x.cell.a else a,
      b := if b = 0 then x.cell.b else b,
      c := if c = 0 then x.cell.c else c,
      alpha := if al = 0 then x.cell.alpha else al,
      beta := if be = 0 then x.cell.beta else be,
      gamma := if ga = 0 then x.cell.gamma else ga } }

/-- C `fmod(v, 1.0)`: the remainder after truncating toward zero. -/
def fmodOne (v : ℚ) : ℚ :=
  v - (Substrate.truncQ v : ℚ)

/-- The literal `1e-8` used by the volume and cell-parameter checks. -/
def eps8 : ℚ := 1 / 100000000

/-- Replacement volume computed by the range branch of `XtalOpt::checkXtal`:
`fabs(fmod(V, 1)) * (vol_max - vol_min) + vol_min`, falling back to the range
midpoint when that value is smaller than 1e-8 in magnitude. -/
def salvageVolume (cfg : Config) (v : ℚ) : ℚ :=
  let newvol := |fmodOne v| * (cfg.vol_max - cfg.vol_min) + cfg.vol_min
  if |newvol| < eps8 then (cfg.vol_max - cfg.vol_min) * (1 / 2) + cfg.vol_min
  else newvol

/-- Remainder of `XtalOpt::checkXtal` after the volume handling: pinned
parameters are assigned, degenerate cell parameters are rejected (the NaN and
infinity cases have no rational counterpart), angles are fixed by the library
routine `fa`, unpinned lattice parameters are bounds-checked, and the
shortest interatomic distance is compared against the configured minimum. -/
def checkXtalRest (cfg : Config) (fa : Cell → List Atom → Cell × List Atom)
    (x1 : Xtal) : Bool × Xtal :=
  let pa := pinned cfg.a_min cfg.a_max
  let pb := pinned cfg.b_min cfg.b_max
  let pc := pinned cfg.c_min cfg.c_max
  let pal := pinned cfg.alpha_min cfg.alpha_max
  let pbe := pinned cfg.beta_min cfg.beta_max
  let pga := pinned cfg.gamma_min cfg.gamma_max
  let x2 := rescaleCell x1 pa pb pc pal pbe pga
  if |x2.cell.a| < eps8 ∨ |x2.cell.b| < eps8 ∨ |x2.cell.c| < eps8 ∨
     |x2.cell.alpha| < eps8 ∨ |x2.cell.beta| < eps8 ∨ |x2.cell.gamma| < eps8 then
    (false, x2)
  else
    let p := fa x2.cell x2.atoms
    let x3 := { x2 with cell := p.1, atoms := p.2 }
    if (pa = 0 ∧ (x3.cell.a < cfg.a_min ∨ x3.cell.a > cfg.a_max)) ∨
       (pb = 0 ∧ (x3.cell.b < cfg.b_min ∨ x3.cell.b > cfg.b_max)) ∨
       (pc = 0 ∧ (x3.cell.c < cfg.c_min ∨ x3.cell.c > cfg.c_max)) ∨
       (pal = 0 ∧ (x3.cell.alpha < cfg.alpha_min ∨ x3.cell.alpha > cfg.alpha_max)) ∨
       (pbe = 0 ∧ (x3.cell.beta < cfg.beta_min ∨ x3.cell.beta > cfg.beta_max)) ∨
       (pga = 0 ∧ (x3.cell.gamma < cfg.gamma_min ∨ x3.cell.gamma > cfg.gamma_max)) then
      (false, x3)
    else if cfg.using_shortestInteratomicDistance then
      match x3.shortestIAD with
      | some d =>
          if d < cfg.shortestInteratomicDistance then (false, x3) else (true, x3)
      | none => (true, x3)
    else (true, x3)

/-- Embedding of `XtalOpt::checkXtal` on a non-null candidate: `Empty`
candidates are rejected; in fixed-volume mode the cell is unconditionally
rescaled to `vol_fixed`, while in range mode an out-of-range volume is
salvaged by `salvageVolume`; then the remaining checks run. -/
def checkXtal (cfg : Config) (fa : Cell → List Atom → Cell × List Atom)
    (x0 : Xtal) : Bool × Xtal :=
  if x0.status = XState.Empty then (false, x0)
  else
    let x1 :=
      if cfg.using_fixed_volume then setVolume x0 cfg.vol_fixed
      else if x0.volume < cfg.vol_min ∨ x0.volume > cfg.vol_max then
        setVolume x0 (salvageVolume cfg x0.volume)
      else x0
    checkXtalRest cfg fa x1

/-- The null-pointer guard at the top of `XtalOpt::checkXtal`. -/
def checkXtalPtr (cfg : Config) (fa : Cell → List Atom → Cell × List Atom) :
    Option Xtal → Bool × Option Xtal
  | none => (false, none)
  | some x => ((checkXtal cfg fa x).1, some (checkXtal cfg fa x).2)

/-- Oracle data consumed by one call to `XtalOpt::generateRandomXtal`: the
six uniform draws, the geometric volume of the constructed cell (computed by
the external cell library), the outcome of the `addAtomRandomly` placement
loop (`none` when 1000 tries are exhausted for some atom), and the resulting
shortest interatomic distance. -/
structure RandomInput where
  r1 : ℚ
  r2 : ℚ
  r3 : ℚ
  r4 : ℚ
  r5 : ℚ
  r6 : ℚ
  vol : ℚ
  placement : Option (List Atom)
  siad : Option ℚ
  deriving DecidableEq, Repr

/-- Embedding of `XtalOpt::generateRandomXtal`: draw the six cell parameters
uniformly inside their bounds, create an `Empty` candidate, apply the fixed
volume if configured, populate the atoms (abandoning the candidate when
placement fails), then set generation, id, parents and
`WaitingForOptimization`. -/
def generateRandomXtal (cfg : Config) (rnd : RandomInput)
    (generation id : ℕ) : Option Xtal :=
  let cell : Cell :=
    { a := rnd.r1 * (cfg.a_max - cfg.a_min) + cfg.a_min,
      b := rnd.r2 * (cfg.b_max - cfg.b_min) + cfg.b_min,
      c := rnd.r3 * (cfg.c_max - cfg.c_min) + cfg.c_min,
      alpha := rnd.r4 * (cfg.alpha_max - cfg.alpha_min) + cfg.alpha_min,
      beta := rnd.r5 * (cfg.beta_max - cfg.beta_min) + cfg.beta_min,
      gamma := rnd.r6 * (cfg.gamma_max - cfg.gamma_min) + cfg.gamma_min }
  let x0 : Xtal :=
    { cell := cell, volume := rnd.vol, atoms := [], shortestIAD := rnd.siad,
      status := XState.Empty, gen := 0, idNumber := 0, index := 0,
      parents := "", energy := none, enthalpy := none, pv := 0,
      currentOptStep := 0, failCount := 0, spacegroup := 0,
      locpath := "", rempath := "" }
  let x1 := if cfg.using_fixed_volume then setVolume x0 cfg.vol_fixed else x0
  match rnd.placement with
  | none => none
  | some atoms =>
      some { x1 with
        atoms := atoms, gen := generation, idNumber := id,
        parents := "Randomly generated",
        status := XState.WaitingForOptimization }

/-- Zero-padded five-digit rendering, `QString::sprintf("%05d", n)`. -/
def pad5 (n : ℕ) : String :=
  let s := toString n
  String.mk (List.replicate (5 - s.length) '0') ++ s

/-- The id scan of `XtalOpt::initializeAndAddXtal` under the naming mutex:
`id` starts at 1 and becomes `idNumber + 1` for every same-generation
structure whose id is at least the running value. -/
def nextIdNumber (store : List Xtal) (generation : ℕ) : ℕ :=
  store.foldl
    (fun id s => if s.gen = generation ∧ id ≤ s.idNumber then s.idNumber + 1 else id) 1

/-- Embedding of `XtalOpt::initializeAndAddXtal`: assign the next id in the
generation, set parents and paths, reset the optimizer step to 1, recompute
the space group (`sgFn` stands for the external spglib call
`findSpaceGroup(tol_spg)`), and publish to the tracker. -/
def initializeAndAddXtal (cfg : Config) (sgFn : Cell → List Atom → ℕ)
    (store : List Xtal) (x : Xtal) (generation : ℕ) (parents : String) :
    Xtal × List Xtal :=
  let id := nextIdNumber store generation
  let dirName := pad5 generation ++ "x" ++ pad5 id ++ "/"
  let x2 :=
    { x with
      idNumber := id, gen := generation, parents := parents,
      locpath := cfg.filePath ++ "/" ++ dirName,
      rempath := cfg.rempathBase ++ "/" ++ dirName,
      currentOptStep := 1,
      spacegroup := sgFn x.cell x.atoms }
  (x2, store ++ [x2])

/-- The `while (!checkXtal(xtal)) xtal = generateRandomXtal(gen, id)` retry
loop, driven by a finite stream of random-generation oracles (the C++ loop
runs unboundedly; an exhausted stream yields `none`).  The surviving
candidate is the checked (possibly volume-salvaged) state. -/
def firstValidRandom (cfg : Config) (fa : Cell → List Atom → Cell × List Atom)
    (generation id : ℕ) : List RandomInput → Option Xtal
  | [] => none
  | r :: rs =>
      match generateRandomXtal cfg r generation id with
      | none => firstValidRandom cfg fa generation id rs
      | some x =>
          let p := checkXtal cfg fa x
          if p.1 then some p.2 else firstValidRandom cfg fa generation id rs

/-- Genetic operators of `XtalOpt::generateNewStructure_`. -/
inductive OpKind where
  | crossover
  | stripple
  | permustrain
  deriving DecidableEq, Repr

/-- Operator selection from a single uniform draw (`r < p_cross/100` picks
crossover, `r < (p_cross + p_strip)/100` stripple, otherwise permustrain). -/
def selectOperator (p_cross p_strip : ℚ) (r : ℚ) : OpKind :=
  if r < p_cross / 100 then OpKind.crossover
  else if r < (p_cross + p_strip) / 100 then OpKind.stripple
  else OpKind.permustrain

/-- Result of one breeding call: the published candidate (tagged with the
genetic operator used, or `none` for the random fallback branch) together
with the updated store, or exhaustion of the oracle streams. -/
inductive GNSResult where
  | published (op : Option OpKind) (x : Xtal) (store : List Xtal) : GNSResult
  | exhausted : GNSResult
  deriving Repr

/-- Modelled from the spec: one outer iteration of the genetic branch of
`XtalOpt::generateNewStructure_`.  The operator draw is recorded; the
operator bodies (`XtalOptGenetic::crossover`, `::stripple`, `::permustrain`,
in genetic.cpp outside src) and the 1000-attempt inner retry loop are
summarized by the oracle field `child`, which carries the validated child
with its generation and parents string, or `none` when the 1000 attempts
were exhausted and the operator is redrawn. -/
structure GeneticOutcome where
  opDraw : ℚ
  child : Option (Xtal × ℕ × String)
  deriving DecidableEq, Repr

/-- Modelled from the spec: the genetic branch of
`XtalOpt::generateNewStructure_` — operators are redrawn until an attempt
produces a valid child, which is then published via
`initializeAndAddXtal`. -/
def geneticBranch (cfg : Config) (sgFn : Cell → List Atom → ℕ)
    (p_cross p_strip : ℚ) (store : List Xtal) :
    List GeneticOutcome → GNSResult
  | [] => GNSResult.exhausted
  | o :: rest =>
      match o.child with
      | some (x, generation, parents) =>
          let p := initializeAndAddXtal cfg sgFn store x generation parents
          GNSResult.published (some (selectOperator p_cross p_strip o.opDraw)) p.1 p.2
      | none => geneticBranch cfg sgFn p_cross p_strip store rest

/-- Embedding of `XtalOpt::generateNewStructure_`: with fewer than 3
optimized structures no genetic operation is attempted — random candidates
with generation 1 are generated until one passes `checkXtal` and the
survivor is published through `initializeAndAddXtal`; otherwise the genetic
branch runs. -/
def generateNewStructureBody (cfg : Config)
    (fa : Cell → List Atom → Cell × List Atom) (sgFn : Cell → List Atom → ℕ)
    (p_cross p_strip : ℚ) (store : List Xtal) (optimized : List Xtal)
    (rnds : List RandomInput) (gouts : List GeneticOutcome) : GNSResult :=
  if optimized.length < 3 then
    match firstValidRandom cfg fa 1 0 rnds with
    | none => GNSResult.exhausted
    | some x =>
        let p := initializeAndAddXtal cfg sgFn store x 1 x.parents
        GNSResult.published none p.1 p.2
  else geneticBranch cfg sgFn p_cross p_strip store gouts

/-- Embedding of `XtalOpt::replaceWithRandom`: generate random candidates
(generation 0, id 0) until one passes `checkXtal`, then copy its cell and
atoms into the existing candidate in place, reset energies, enthalpy, PV,
the optimizer step and the fail count, stamp the provenance string with the
reason, and recompute the space group (`sgFn` stands for the external
spglib call). -/
def replaceWithRandom (cfg : Config)
    (fa : Cell → List Atom → Cell × List Atom) (sgFn : Cell → List Atom → ℕ)
    (rnds : List RandomInput) (old : Xtal) (reason : String) : Option Xtal :=
  match firstValidRandom cfg fa 0 0 rnds with
  | none => none
  | some x =>
      some { old with
        cell := x.cell,
        volume := x.volume,
        atoms := x.atoms,
        shortestIAD := x.shortestIAD,
        energy := none,
        enthalpy := none,
        pv := 0,
        currentOptStep := 1,
        parents :=
          if reason = "" then "Randomly generated"
          else "Randomly generated (" ++ reason ++ ")",
        spacegroup := sgFn x.cell x.atoms,
        failCount := 0 }

/-- Demo range-volume session configuration (scenario S1 bounds). -/
def cfgRange : Config :=
  { a_min := 3, a_max := 5, b_min := 3, b_max := 5, c_min := 3, c_max := 5,
    alpha_min := 60, alpha_max := 120, beta_min := 60, beta_max := 120,
    gamma_min := 60, gamma_max := 120,
    using_fixed_volume := false, vol_fixed := 0, vol_min := 30, vol_max := 120,
    using_shortestInteratomicDistance := false, shortestInteratomicDistance := 0,
    filePath := "", rempathBase := "" }

/-- Demo fixed-volume session configuration. -/
def cfgFixed : Config :=
  { cfgRange with using_fixed_volume := true, vol_fixed := 50 }

/-- Trivial angle fixer used in witnesses (identity on cell and atoms). -/
def idFa : Cell → List Atom → Cell × List Atom := fun c a => (c, a)

/-- Trivial space-group oracle used in witnesses. -/
def sgOne : Cell → List Atom → ℕ := fun _ _ => 1

/-- Demo random-generation oracle: all six draws 1/2, geometric volume 50,
empty successful placement. -/
def rnd0 : RandomInput :=
  { r1 := 1/2, r2 := 1/2, r3 := 1/2, r4 := 1/2, r5 := 1/2, r6 := 1/2,
    vol := 50, placement := some [], siad := none }

/-- Demo candidate with an out-of-range volume (150.25). -/
def xOut : Xtal :=
  { cell := ⟨4, 4, 4, 90, 90, 90⟩, volume := 601/4, atoms := [],
    shortestIAD := none, status := XState.WaitingForOptimization,
    gen := 1, idNumber := 0, index := 0, parents := "", energy := none,
    enthalpy := none, pv := 0, currentOptStep := 0, failCount := 0,
    spacegroup := 0, locpath := "", rempath := "" }

/-- Demo candidate to be replaced in the C3 witness. -/
def oldX : Xtal :=
  { cell := ⟨1, 1, 1, 70, 70, 70⟩, volume := 10, atoms := [⟨6, 0, 0, 0⟩],
    shortestIAD := some 2, status := XState.Optimized,
    gen := 3, idNumber := 7, index := 5, parents := "Crossover: 1x1 (50%) + 2x2 (50%)",
    energy := some 5, enthalpy := some 6, pv := 2, currentOptStep := 4,
    failCount := 9, spacegroup := 225, locpath := "L", rempath := "R" }

/-- Expected result of replacing `oldX` using `rnd0` under `cfgRange`. -/
def yRepl : Xtal :=
  { oldX with
    cell := ⟨4, 4, 4, 90, 90, 90⟩, volume := 50, atoms := [],
    shortestIAD := none, energy := none, enthalpy := none, pv := 0,
    currentOptStep := 1, parents := "Randomly generated (test)",
    spacegroup := 1, failCount := 0 }

/-- One subdirectory of the session directory as seen by `XtalOpt::load`:
whether it contains `structure.state`, whether it contains the legacy
`xtal.state`, and the candidate parsed from it by `readSettings` plus the
optimizer plugin (`none` when the plugin's `load` fails and the directory is
skipped). -/
structure DirEntry where
  hasStructureState : Bool
  hasXtalState : Bool
  parsed : Option Xtal
  deriving DecidableEq, Repr

/-- The top-level session state file as seen by `XtalOpt::load`: whether the
file could be opened, the parsed `xtalopt/saveSuccessful` flag (absent when
the key is missing), and the candidate subdirectories. -/
structure StateFile where
  openable : Bool
  saveSuccessful : Option Bool
  dirs : List DirEntry
  deriving DecidableEq, Repr

/-- Index swap on the loaded-structure list (`QList::swap`). -/
def swapX (l : List Xtal) (i j : ℕ) : List Xtal :=
  match l.get? i, l.get? j with
  | some x, some y => (l.set i y).set j x
  | _, _ => l

/-- Inner `j` loop of the index-sorting pass of `XtalOpt::load`: whenever
`loadedStructures[j].index == i`, swap position `j` with `curpos` and
advance `curpos`. -/
def loadSortInner (i : ℕ) : List ℕ → List Xtal × ℕ → List Xtal × ℕ
  | [], st => st
  | j :: rest, (l, curpos) =>
      if (l.get? j).map Xtal.index = some i then
        loadSortInner i rest (swapX l j curpos, curpos + 1)
      else loadSortInner i rest (l, curpos)

/-- The full index-sorting pass of `XtalOpt::load`. -/
def loadSort (l : List Xtal) : List Xtal :=
  ((List.range l.length).foldl
    (fun st i => loadSortInner i (List.range l.length) st) (l, 0)).1

/-- Defensive index reassignment of `XtalOpt::load`
(`loadedStructures.at(i)->setIndex(i)`). -/
def reindex (l : List Xtal) : List Xtal :=
  l.enum.map fun p => { p.2 with index := p.1 }

/-- Embedding of `XtalOpt::load`: refuse when the file cannot be opened or
when `saveSuccessful` is absent or false; otherwise keep the directories
holding `structure.state` or the legacy `xtal.state`, collect the candidates
the plugin could parse, sort them by stored index, reassign indices
defensively, and append them to the tracker.  The ssh/session-resume side
effects carry no tracker changes and are omitted. -/
def load (f : StateFile) (tracker : List Xtal) : Bool × List Xtal :=
  if ¬ f.openable then (false, tracker)
  else if ¬ (f.saveSuccessful.getD false) then (false, tracker)
  else
    let dirs := f.dirs.filter fun d => d.hasStructureState || d.hasXtalState
    let loaded := dirs.filterMap fun d => d.parsed
    (true, tracker ++ reindex (loadSort loaded))

/-- Character-list model of `QString` for the template machinery. -/
abbrev Str := List Char

/-- `QString::split(sep)` with empty parts kept. -/
def splitOnChar (sep : Char) : Str → List Str
  | [] => [[]]
  | ch :: rest =>
      let r := splitOnChar sep rest
      if ch = sep then [] :: r
      else
        match r with
        | [] => [[ch]]
        | h :: t => (ch :: h) :: t

/-- Display data of one atom for the coordinate keywords: element symbol,
atomic-number text and the three coordinate texts (number formatting is
performed by the external `QString::number` and supplied as text). -/
structure TAtom where
  symS : Str
  numS : Str
  xS : Str
  yS : Str
  zS : Str

/-- Display data of one fractional coordinate for the `%POSCAR%` block. -/
structure TCoord where
  xS : Str
  yS : Str
  zS : Str

/-- Textual inputs of `XtalOpt::interpretKeyword` for one structure: every
numeric expansion is the external `QString::number` rendering of the
corresponding library value (the Bohr matrix entries already include the
1.889725989 factor applied before formatting). -/
structure TemplateEnv where
  aS : Str
  bS : Str
  cS : Str
  alphaRadS : Str
  betaRadS : Str
  gammaRadS : Str
  alphaDegS : Str
  betaDegS : Str
  gammaDegS : Str
  volumeS : Str
  atoms : List TAtom
  cellMat : List (List Str)
  cellMatBohr : List (List Str)
  fileNameS : Str
  poscarCounts : List Str
  poscarCoords : List TCoord
  genS : Str
  idS : Str

/-- One cell-vector line: each entry followed by a tab. -/
def tabRow (row : List Str) : Str :=
  (row.map fun e => e ++ ['\t']).flatten

/-- Cell-matrix expansion: three tab-terminated rows, each newline-ended. -/
def matrixRep (m : List (List Str)) : Str :=
  (m.map fun row => tabRow row ++ ['\n']).flatten

/-- Cell-vector expansion: the `k`-th tab-terminated row, no newline. -/
def vecRep (m : List (List Str)) (k : ℕ) : Str :=
  tabRow (m.getD k [])

/-- `%coordsFrac%` expansion: `"<symbol> <x> <y> <z>\n"` per atom. -/
def coordsFracRep (atoms : List TAtom) : Str :=
  (atoms.map fun t =>
    t.symS ++ [' '] ++ t.xS ++ [' '] ++ t.yS ++ [' '] ++ t.zS ++ ['\n']).flatten

/-- `%coordsFracId%` expansion: `"<symbol> <Z> <x> <y> <z>\n"` per atom. -/
def coordsFracIdRep (atoms : List TAtom) : Str :=
  (atoms.map fun t =>
    t.symS ++ [' '] ++ t.numS ++ [' '] ++ t.xS ++ [' '] ++ t.yS ++ [' ']
      ++ t.zS ++ ['\n']).flatten

/-- POSCAR cell-vector lines: space-terminated entries, newline-ended. -/
def poscarVecsRep (m : List (List Str)) : Str :=
  (m.map fun row => (row.map fun e => e ++ [' ']).flatten ++ ['\n']).flatten

/-- POSCAR atom-count line. -/
def poscarCountsRep (cs : List Str) : Str :=
  (cs.map fun e => e ++ [' ']).flatten ++ ['\n']

/-- POSCAR fractional-coordinate lines. -/
def poscarCoordsRep (cs : List TCoord) : Str :=
  (cs.map fun t => t.xS ++ [' '] ++ t.yS ++ [' '] ++ t.zS ++ [' '] ++ ['\n']).flatten

/-- `%POSCAR%` expansion: filename comment, scale factor 1, cell vectors,
alphabetic atom counts, `Direct`, fractional coordinates. -/
def poscarRep (env : TemplateEnv) : Str :=
  env.fileNameS ++ ['\n'] ++ "1".toList ++ ['\n'] ++ poscarVecsRep env.cellMat
    ++ poscarCountsRep env.poscarCounts ++ "Direct".toList ++ ['\n']
    ++ poscarCoordsRep env.poscarCoords

/-- The keyword dispatch of `XtalOpt::interpretKeyword`: the replacement text
accumulated in `rep`, empty when the segment is no recognized crystal
keyword. -/
def kwRep (env : TemplateEnv) (line : Str) : Str :=
  if line = "a".toList then env.aS
  else if line = "b".toList then env.bS
  else if line = "c".toList then env.cS
  else if line = "alphaRad".toList then env.alphaRadS
  else if line = "betaRad".toList then env.betaRadS
  else if line = "gammaRad".toList then env.gammaRadS
  else if line = "alphaDeg".toList then env.alphaDegS
  else if line = "betaDeg".toList then env.betaDegS
  else if line = "gammaDeg".toList then env.gammaDegS
  else if line = "volume".toList then env.volumeS
  else if line = "coordsFrac".toList then coordsFracRep env.atoms
  else if line = "coordsFracId".toList then coordsFracIdRep env.atoms
  else if line = "cellMatrixAngstrom".toList then matrixRep env.cellMat
  else if line = "cellVector1Angstrom".toList then vecRep env.cellMat 0
  else if line = "cellVector2Angstrom".toList then vecRep env.cellMat 1
  else if line = "cellVector3Angstrom".toList then vecRep env.cellMat 2
  else if line = "cellMatrixBohr".toList then matrixRep env.cellMatBohr
  else if line = "cellVector1Bohr".toList then vecRep env.cellMatBohr 0
  else if line = "cellVector2Bohr".toList then vecRep env.cellMatBohr 1
  else if line = "cellVector3Bohr".toList then vecRep env.cellMatBohr 2
  else if line = "POSCAR".toList then poscarRep env
  else []

/-- `rep.replace(QRegExp("\n$"), "")`: drop one trailing newline. -/
def trimNL (s : Str) : Str :=
  if s.getLast? = some '\n' then s.dropLast else s

/-- Tail of `XtalOpt::interpretKeyword`: when `rep` is nonempty, trailing
newlines are trimmed and the segment is replaced. -/
def interpretKeywordXtal (env : TemplateEnv) (line : Str) : Str :=
  if kwRep env line = [] then line else trimNL (kwRep env line)

/-- Modelled from the spec: the base-class keyword pass
(`interpretKeyword_base`, optbase.cpp, outside src) resolves the
engine-level keywords `%gen%` and `%id%` of the spec's keyword set. -/
def baseKwRep (env : TemplateEnv) (line : Str) : Str :=
  if line = "gen".toList then env.genS
  else if line = "id".toList then env.idS
  else []

/-- Modelled from the spec: the replace-if-nonempty tail of the base keyword
pass, mirroring `interpretKeywordXtal`. -/
def interpretKeywordBase (env : TemplateEnv) (line : Str) : Str :=
  if baseKwRep env line = [] then line else trimNL (baseKwRep env line)

/-- One segment's processing in `XtalOpt::interpretTemplate`: the base pass
followed by the crystal pass on the (possibly replaced) line. -/
def expandSeg (env : TemplateEnv) (s : Str) : Str :=
  interpretKeywordXtal env (interpretKeywordBase env s)

/-- The segment loop of `XtalOpt::interpretTemplate`, replacing a segment
only when the keyword passes changed it. -/
def interpretLoop (env : TemplateEnv) : List Str → List Str
  | [] => []
  | l :: ls =>
      (if expandSeg env l ≠ l then expandSeg env l else l) :: interpretLoop env ls

/-- Embedding of `XtalOpt::interpretTemplate`: split on `%`, run the keyword
passes on every segment, rejoin with the empty separator and append one
newline. -/
def interpretTemplate (env : TemplateEnv) (t : Str) : Str :=
  (interpretLoop env (splitOnChar '%' t)).flatten ++ ['\n']

/-- The spec's recognized keyword set. -/
def recognizedKeywords : List Str :=
  ["a".toList, "b".toList, "c".toList, "alphaRad".toList, "betaRad".toList,
   "gammaRad".toList, "alphaDeg".toList, "betaDeg".toList, "gammaDeg".toList,
   "volume".toList, "coordsFrac".toList, "coordsFracId".toList,
   "cellMatrixAngstrom".toList, "cellVector1Angstrom".toList,
   "cellVector2Angstrom".toList, "cellVector3Angstrom".toList,
   "cellMatrixBohr".toList, "cellVector1Bohr".toList, "cellVector2Bohr".toList,
   "cellVector3Bohr".toList, "POSCAR".toList, "gen".toList, "id".toList]

/-- A piece of text free of newline characters. -/
abbrev noNL (s : Str) : Prop := '\n' ∉ s

/-- Well-formedness of the template inputs: the external number/symbol
renderings contain no newline and matrix rows are nonempty (they always hold
three entries in the source). -/
abbrev envNoNL (env : TemplateEnv) : Prop :=
  noNL env.aS ∧ noNL env.bS ∧ noNL env.cS ∧
  noNL env.alphaRadS ∧ noNL env.betaRadS ∧ noNL env.gammaRadS ∧
  noNL env.alphaDegS ∧ noNL env.betaDegS ∧ noNL env.gammaDegS ∧
  noNL env.volumeS ∧
  (∀ t ∈ env.atoms,
    noNL t.symS ∧ noNL t.numS ∧ noNL t.xS ∧ noNL t.yS ∧ noNL t.zS) ∧
  (∀ row ∈ env.cellMat, row ≠ [] ∧ ∀ e ∈ row, noNL e) ∧
  (∀ row ∈ env.cellMatBohr, row ≠ [] ∧ ∀ e ∈ row, noNL e) ∧
  noNL env.fileNameS ∧
  (∀ c ∈ env.poscarCounts, noNL c) ∧
  (∀ t ∈ env.poscarCoords, noNL t.xS ∧ noNL t.yS ∧ noNL t.zS) ∧
  noNL env.genS ∧ noNL env.idS

/-- Demo template environment for the C6 witness. -/
def env0 : TemplateEnv :=
  { aS := "4".toList, bS := "4".toList, cS := "4".toList,
    alphaRadS := [], betaRadS := [], gammaRadS := [],
    alphaDegS := "90".toList, betaDegS := "90".toList, gammaDegS := "90".toList,
    volumeS := "64".toList, atoms := [], cellMat := [], cellMatBohr := [],
    fileNameS := [], poscarCounts := [], poscarCoords := [],
    genS := "1".toList, idS := "7".toList }

end XtalOpt

namespace Substrate

theorem cumsum_length (l : List ℚ) (acc : ℚ) : (cumsum l acc).length = l.length := by
  induction l generalizing acc with
  | nil => rfl
  | cons x xs ih => simp [cumsum, ih]

theorem cumsum_chain (l : List ℚ) (acc : ℚ) (h : ∀ x ∈ l, 0 ≤ x) :
    List.Chain' (· ≤ ·) (cumsum l acc) := by
  induction l generalizing acc with
  | nil => simp [cumsum]
  | cons x xs ih =>
      simp only [cumsum]
      cases xs with
      | nil => simp [cumsum]
      | cons y ys =>
          refine List.Chain'.cons ?_ ?_
          · have hy : 0 ≤ y := h y (by simp)
            simp [cumsum]
            linarith
          · exact ih (acc + x) (fun z hz => h z (List.mem_cons_of_mem x hz))

theorem cumsum_getLastD (l : List ℚ) (acc d : ℚ) (h : l ≠ []) :
    (cumsum l acc).getLastD d = acc + l.sum := by
  induction l generalizing acc with
  | nil => exact absurd rfl h
  | cons x xs ih =>
      cases xs with
      | nil => simp [cumsum]
      | cons y ys =>
          have h2 := ih (acc + x) (by simp)
          simp only [cumsum] at h2 ⊢
          rw [List.getLastD_cons, List.getLastD_cons]
          rw [List.getLastD_cons] at h2
          rw [h2]
          simp only [List.sum_cons]
          ring

theorem cumsum_headD_nonneg (l : List ℚ) (h : ∀ x ∈ l, 0 ≤ x) :
    0 ≤ (cumsum l 0).headD 0 := by
  cases l with
  | nil => simp [cumsum]
  | cons x xs =>
      have := h x (by simp)
      simp [cumsum]
      linarith

theorem sum_map_div (l : List ℚ) (s : ℚ) :
    (l.map (fun p => p / s)).sum = l.sum / s := by
  induction l with
  | nil => simp
  | cons x xs ih => simp [List.sum_cons, ih, add_div]

theorem sorted_headD_le (es : List ℚ) (hs : List.Chain' (· ≤ ·) es) :
    ∀ x ∈ es, es.headD 0 ≤ x := by
  cases es with
  | nil => simp
  | cons a l =>
      intro x hx
      rw [List.chain'_iff_pairwise] at hs
      rcases List.mem_cons.mp hx with h | h
      · simp [h]
      · exact (List.pairwise_cons.mp hs).1 x h

theorem sorted_le_getLastD (es : List ℚ) (hs : List.Chain' (· ≤ ·) es) :
    ∀ x ∈ es, x ≤ es.getLastD 0 := by
  induction es with
  | nil => simp
  | cons a l ih =>
      intro x hx
      cases l with
      | nil =>
          simp at hx
          simp [hx]
      | cons b l2 =>
          have hab : a ≤ b := (List.chain'_cons.mp hs).1
          have htail := (List.chain'_cons.mp hs).2
          rw [List.getLastD_cons]
          rcases List.mem_cons.mp hx with h | h
          · subst h
            exact le_trans hab (ih htail b (by simp))
          · exact ih htail x h

theorem stage2_pos (es : List ℚ) (h2 : 2 ≤ es.length)
    (hs : List.Chain' (· ≤ ·) es) : ∀ x ∈ probsStage2 es, 0 < x := by
  intro x hx
  simp only [probsStage2, probsStage1, List.map_map, List.mem_map] at hx
  obtain ⟨e, he, rfl⟩ := hx
  simp only [Function.comp]
  have hlo := sorted_headD_le es hs e he
  have hhi := sorted_le_getLastD es hs e he
  have hne : es ≠ [] := by
    intro h
    rw [h] at h2
    simp at h2
  have hlohi : es.headD 0 ≤ es.getLastD 0 := by
    have hmem : es.headD 0 ∈ es := by
      cases es with
      | nil => exact absurd rfl hne
      | cons a l => simp
    exact sorted_le_getLastD es hs _ hmem
  rcases lt_or_eq_of_le hlohi with hlt | heq
  · have hnpos : (0 : ℚ) < (es.length : ℚ) := by
      have : (0 : ℕ) < es.length := by omega
      exact_mod_cast this
    have hspread_gt : es.getLastD 0 - es.headD 0 < spreadOf es := by
      unfold spreadOf
      have : 0 < (es.getLastD 0 - es.headD 0) / (es.length : ℚ) :=
        div_pos (by linarith) hnpos
      linarith
    have hspread_pos : 0 < spreadOf es := by
      unfold spreadOf
      have : 0 ≤ (es.getLastD 0 - es.headD 0) / (es.length : ℚ) :=
        le_of_lt (div_pos (by linarith) hnpos)
      linarith
    have hq : (e - es.headD 0) / spreadOf es < 1 := by
      rw [div_lt_one hspread_pos]
      linarith
    linarith
  · have : e = es.headD 0 := le_antisymm (heq ▸ hhi) hlo
    rw [this]
    simp

theorem stage2_sum_pos (es : List ℚ) (h2 : 2 ≤ es.length)
    (hs : List.Chain' (· ≤ ·) es) : 0 < (probsStage2 es).sum := by
  apply List.sum_pos _ (stage2_pos es h2 hs)
  intro h
  have : (probsStage2 es).length = es.length := by
    simp [probsStage2, probsStage1]
  rw [h] at this
  simp at this
  omega

theorem stage3_nonneg (es : List ℚ) (h2 : 2 ≤ es.length)
    (hs : List.Chain' (· ≤ ·) es) : ∀ x ∈ probsStage3 es, 0 ≤ x := by
  intro x hx
  simp only [probsStage3, List.mem_map] at hx
  obtain ⟨p, hp, rfl⟩ := hx
  exact le_of_lt (div_pos (stage2_pos es h2 hs p hp) (stage2_sum_pos es h2 hs))

theorem stage3_sum (es : List ℚ) (h2 : 2 ≤ es.length)
    (hs : List.Chain' (· ≤ ·) es) : (probsStage3 es).sum = 1 := by
  unfold probsStage3
  rw [sum_map_div]
  exact div_self (ne_of_gt (stage2_sum_pos es h2 hs))

theorem stage3_ne_nil (es : List ℚ) (h2 : 2 ≤ es.length) :
    probsStage3 es ≠ [] := by
  intro h
  have : (probsStage3 es).length = es.length := by
    simp [probsStage3, probsStage2, probsStage1]
  rw [h] at this
  simp at this
  omega

/-- C2: for every sorted (ascending) input of length at least 2, the
cumulative probability list built by `Substrate::generateProbabilities`
(spread `(hi - lo) * (n + 1) / n`, weights `1 - (e_i - lo) / spread`,
normalized, then cumulated) is monotonically non-decreasing, its first
value is nonnegative, its final value is at most 1, and the spread the
code computes equals the claimed `(hi - lo) * (n + 1) / n`. -/
theorem c2_probability_list_props (es : List ℚ) (h2 : 2 ≤ es.length)
    (hs : List.Chain' (· ≤ ·) es) :
    List.Chain' (· ≤ ·) (probsFromSorted es) ∧
    0 ≤ (probsFromSorted es).headD 0 ∧
    (probsFromSorted es).getLastD 0 ≤ 1 ∧
    spreadOf es
      = (es.getLastD 0 - es.headD 0) * ((es.length : ℚ) + 1) / (es.length : ℚ) := by
  refine ⟨?_, ?_, ?_, ?_⟩
  · exact cumsum_chain _ 0 (stage3_nonneg es h2 hs)
  · exact cumsum_headD_nonneg _ (stage3_nonneg es h2 hs)
  · unfold probsFromSorted
    rw [cumsum_getLastD _ _ _ (stage3_ne_nil es h2)]
    rw [stage3_sum es h2 hs]
    norm_num
  · have hn : (es.length : ℚ) ≠ 0 := by
      have : (0 : ℕ) < es.length := by omega
      exact_mod_cast Nat.pos_iff_ne_zero.mp this
    unfold spreadOf
    field_simp
    ring

/-- Witness for C2 at the spec's example enthalpies `[-5, -2, -1, 3, 5]`. -/
theorem c2_probability_list_props_witness :
    List.Chain' (· ≤ ·) (probsFromSorted [(-5 : ℚ), -2, -1, 3, 5]) ∧
    0 ≤ (probsFromSorted [(-5 : ℚ), -2, -1, 3, 5]).headD 0 ∧
    (probsFromSorted [(-5 : ℚ), -2, -1, 3, 5]).getLastD 0 ≤ 1 ∧
    spreadOf [(-5 : ℚ), -2, -1, 3, 5]
      = (([(-5 : ℚ), -2, -1, 3, 5].getLastD 0 - [(-5 : ℚ), -2, -1, 3, 5].headD 0)
          * (([(-5 : ℚ), -2, -1, 3, 5].length : ℚ) + 1) / ([(-5 : ℚ), -2, -1, 3, 5].length : ℚ)) :=
  c2_probability_list_props [(-5 : ℚ), -2, -1, 3, 5] (by decide)
    (by norm_num [List.chain'_cons])

end Substrate

namespace Substrate

/-- C10: a singleton conformer list short-circuits
`Substrate::generateProbabilities` to the probability list `[1.0]` before the
sort or the spread (and its would-be zero-spread division) is ever computed. -/
theorem c10_singleton_probabilities (e : ℚ) :
    generateProbabilities [e] = [1] := by
  simp [generateProbabilities]

/-- C8: `Substrate::getRandomConformerIndex` returns the random draw `r`
(truncated by the implicit `double → int` conversion) for every probability
list, rather than the chosen index `ind`; on the source comment's own example
list with draw 1/2 the returned value is 0 while the selected index is 1. -/
theorem c8_returns_draw_not_index :
    (∀ (probs : List ℚ) (r : ℚ), getRandomConformerIndex probs r = truncQ r) ∧
    getRandomConformerIndex demoProbs (1 / 2) = 0 ∧
    chosenIndex demoProbs (1 / 2) = 1 := by
  refine ⟨fun probs r => rfl, ?_, ?_⟩
  · show truncQ (1 / 2) = 0
    unfold truncQ
    rw [if_pos (by norm_num)]
    rw [Int.floor_eq_zero_iff]
    constructor <;> norm_num
  · norm_num [demoProbs, chosenIndex]

end Substrate

namespace XtalOpt

/-- C1: when the duplicate scan reaches a pair `i < j` whose snapshot entries
are both `Optimized` with equal nonzero spacegroups and enthalpy and volume
differences within the tolerances, exactly one of the two is marked
`Duplicate`: `i` when its enthalpy is strictly higher (after which the inner
loop stops, so no later `j'` is compared against `i`), otherwise `j` (so on an
enthalpy tie the larger index `j` is marked); the marked structure's duplicate
string is the `"GxI"` string of the other. -/
theorem c1_duplicate_pair_marking (cfg : DupConfig) (es : List DupEntry)
    (i j : ℕ) (ei ej : DupEntry) (rest : List ℕ) (m : List Mark)
    (hi : es.get? i = some ei) (hj : es.get? j = some ej)
    (hsi : ei.state = XState.Optimized) (hsj : ej.state = XState.Optimized)
    (hgi : ei.spacegroup ≠ 0) (hgj : ej.spacegroup ≠ 0)
    (hgeq : ei.spacegroup = ej.spacegroup)
    (hent : |ei.enthalpy - ej.enthalpy| ≤ cfg.tol_enthalpy)
    (hvol : |ei.volume - ej.volume| ≤ cfg.tol_volume) :
    innerScan cfg es i ei (j :: rest) m =
      if ej.enthalpy < ei.enthalpy then
        m.set i (XState.Duplicate, some (gxiString ej))
      else
        innerScan cfg es i ei rest (m.set j (XState.Duplicate, some (gxiString ei))) := by
  simp only [innerScan, hj]
  rw [if_neg (by simp [hsj])]
  rw [if_neg hgj]
  rw [if_neg (by simp [hgeq])]
  rw [if_neg (by push_neg; exact ⟨hent, hvol⟩)]

/-- Witness for C1 on the S4 scenario: with tolerances (1e-2, 1e-1) the
higher-enthalpy structure (enthalpy -10, index 0) is marked as duplicate of
`"1x2"`. -/
theorem c1_duplicate_pair_marking_witness :
    innerScan ⟨1 / 100, 1 / 10⟩ dupEs 0 dupA [1] dupM0 =
      dupM0.set 0 (XState.Duplicate, some (gxiString dupB)) := by
  have h := c1_duplicate_pair_marking ⟨1 / 100, 1 / 10⟩ dupEs 0 1 dupA dupB [] dupM0
    rfl rfl rfl rfl (by decide) (by decide) rfl
    (by norm_num [dupA, dupB, abs_le]) (by norm_num [dupA, dupB, abs_le])
  rw [h, if_pos (by norm_num [dupA, dupB])]

/-- Counterexample to C7: with the session not starting and one scan already
scheduled or running, a further trigger is not dropped — afterwards two scans
are pending, so the scan is not debounced by a single-flight flag. -/
theorem c7_single_flight_counterexample :
    (checkForDuplicatesTrigger ⟨false, 1⟩).pendingScans = 2 ∧
    ¬ (checkForDuplicatesTrigger ⟨false, 1⟩).pendingScans ≤ 1 := by
  constructor
  · rfl
  · decide

/-- C7 (amended): the duplicate scan triggered after every append is dropped
exactly while the session is starting (`isStarting`); otherwise every trigger
schedules an additional concurrent scan, so several scans may be scheduled or
running at once. -/
theorem c7_trigger_guard (s : SchedulerState) :
    (s.isStarting = true → checkForDuplicatesTrigger s = s) ∧
    (s.isStarting = false →
      (checkForDuplicatesTrigger s).pendingScans = s.pendingScans + 1 ∧
      (checkForDuplicatesTrigger s).isStarting = s.isStarting) := by
  obtain ⟨st, p⟩ := s
  cases st <;> constructor <;> intro h <;> simp_all [checkForDuplicatesTrigger]

/-- Witness for C7 (amended) at concrete states. -/
theorem c7_trigger_guard_witness :
    checkForDuplicatesTrigger ⟨true, 3⟩ = ⟨true, 3⟩ ∧
    (checkForDuplicatesTrigger ⟨false, 3⟩).pendingScans = 4 :=
  ⟨(c7_trigger_guard ⟨true, 3⟩).1 rfl, ((c7_trigger_guard ⟨false, 3⟩).2 rfl).1⟩

theorem fmodOne_of_nonneg (v : ℚ) (h : 0 ≤ v) : fmodOne v = Int.fract v := by
  unfold fmodOne Substrate.truncQ
  rw [if_pos h]
  rfl

theorem abs_fmodOne_of_nonneg (v : ℚ) (h : 0 ≤ v) : |fmodOne v| = Int.fract v := by
  rw [fmodOne_of_nonneg v h]
  exact abs_of_nonneg (Int.fract_nonneg v)

/-- C4: in range-volume mode an out-of-range volume `V` does not reject the
candidate; `checkXtal` rescales the volume to
`((V mod 1) * (vol_max - vol_min)) + vol_min` — or to the range midpoint
`(vol_max - vol_min)/2 + vol_min` when that value is smaller than 1e-8 in
magnitude — and continues with the remaining checks; only the fixed-volume
branch rescales unconditionally to the fixed target. -/
theorem c4_range_volume_salvage (cfg cfgF : Config)
    (fa : Cell → List Atom → Cell × List Atom) (x y : Xtal)
    (hmode : cfg.using_fixed_volume = false)
    (hst : x.status ≠ XState.Empty)
    (hout : x.volume < cfg.vol_min ∨ x.volume > cfg.vol_max)
    (hnn : 0 ≤ x.volume)
    (hmodeF : cfgF.using_fixed_volume = true)
    (hsty : y.status ≠ XState.Empty) :
    checkXtal cfg fa x = checkXtalRest cfg fa (setVolume x (salvageVolume cfg x.volume)) ∧
    salvageVolume cfg x.volume =
      (if |Int.fract x.volume * (cfg.vol_max - cfg.vol_min) + cfg.vol_min| < 1 / 100000000
       then (cfg.vol_max - cfg.vol_min) / 2 + cfg.vol_min
       else Int.fract x.volume * (cfg.vol_max - cfg.vol_min) + cfg.vol_min) ∧
    checkXtal cfgF fa y = checkXtalRest cfgF fa (setVolume y cfgF.vol_fixed) := by
  refine ⟨?_, ?_, ?_⟩
  · unfold checkXtal
    rw [if_neg hst]
    simp only [hmode, Bool.false_eq_true, if_false]
    rw [if_pos hout]
  · unfold salvageVolume eps8
    rw [abs_fmodOne_of_nonneg x.volume hnn]
    show (if |Int.fract x.volume * (cfg.vol_max - cfg.vol_min) + cfg.vol_min| < 1 / 100000000
          then (cfg.vol_max - cfg.vol_min) * (1 / 2) + cfg.vol_min
          else Int.fract x.volume * (cfg.vol_max - cfg.vol_min) + cfg.vol_min) =
         (if |Int.fract x.volume * (cfg.vol_max - cfg.vol_min) + cfg.vol_min| < 1 / 100000000
          then (cfg.vol_max - cfg.vol_min) / 2 + cfg.vol_min
          else Int.fract x.volume * (cfg.vol_max - cfg.vol_min) + cfg.vol_min)
    by_cases hc : |Int.fract x.volume * (cfg.vol_max - cfg.vol_min) + cfg.vol_min| < 1 / 100000000
    · rw [if_pos hc, if_pos hc]
      ring
    · rw [if_neg hc, if_neg hc]
  · unfold checkXtal
    rw [if_neg hsty]
    simp only [hmodeF, if_true]

/-- Witness for C4 with the demo range and fixed configurations and the
volume-150.25 candidate. -/
theorem c4_range_volume_salvage_witness :
    checkXtal cfgRange idFa xOut =
      checkXtalRest cfgRange idFa (setVolume xOut (salvageVolume cfgRange xOut.volume)) ∧
    salvageVolume cfgRange xOut.volume =
      (if |Int.fract xOut.volume * (cfgRange.vol_max - cfgRange.vol_min) + cfgRange.vol_min|
          < 1 / 100000000
       then (cfgRange.vol_max - cfgRange.vol_min) / 2 + cfgRange.vol_min
       else Int.fract xOut.volume * (cfgRange.vol_max - cfgRange.vol_min) + cfgRange.vol_min) ∧
    checkXtal cfgFixed idFa xOut =
      checkXtalRest cfgFixed idFa (setVolume xOut cfgFixed.vol_fixed) :=
  c4_range_volume_salvage cfgRange cfgFixed idFa xOut xOut rfl (by decide)
    (Or.inr (by norm_num [cfgRange, xOut])) (by norm_num [xOut]) rfl (by decide)

/-- C3: `replaceWithRandom` leaves the candidate's id number, generation and
index unchanged (the caller's handle stays valid) and resets the fail count
to 0, the current step to 1, the energy, enthalpy and PV values, and sets
`parents` to a "Randomly generated" provenance string carrying the reason. -/
theorem c3_replace_with_random_frame (cfg : Config)
    (fa : Cell → List Atom → Cell × List Atom) (sgFn : Cell → List Atom → ℕ)
    (rnds : List RandomInput) (old : Xtal) (reason : String) (y : Xtal)
    (h : replaceWithRandom cfg fa sgFn rnds old reason = some y) :
    y.idNumber = old.idNumber ∧ y.gen = old.gen ∧ y.index = old.index ∧
    y.failCount = 0 ∧ y.currentOptStep = 1 ∧
    y.energy = none ∧ y.enthalpy = none ∧ y.pv = 0 ∧
    y.parents = (if reason = "" then "Randomly generated"
                 else "Randomly generated (" ++ reason ++ ")") := by
  unfold replaceWithRandom at h
  cases hf : firstValidRandom cfg fa 0 0 rnds with
  | none =>
      rw [hf] at h
      exact absurd h (by simp)
  | some x =>
      rw [hf] at h
      have hy := Option.some.inj h
      subst hy
      exact ⟨rfl, rfl, rfl, rfl, rfl, rfl, rfl, rfl, rfl⟩

/-- Witness for C3: replacing the demo candidate `oldX` with the random
structure generated from `rnd0` under the range configuration. -/
theorem c3_replace_with_random_frame_witness :
    yRepl.idNumber = oldX.idNumber ∧ yRepl.gen = oldX.gen ∧
    yRepl.index = oldX.index ∧ yRepl.failCount = 0 ∧
    yRepl.currentOptStep = 1 ∧ yRepl.energy = none ∧ yRepl.enthalpy = none ∧
    yRepl.pv = 0 ∧
    yRepl.parents = (if "test" = "" then "Randomly generated"
                     else "Randomly generated (" ++ "test" ++ ")") :=
  c3_replace_with_random_frame cfgRange idFa sgOne [rnd0] oldX "test" yRepl
    (by norm_num [replaceWithRandom, firstValidRandom, generateRandomXtal,
      checkXtal, checkXtalRest, setVolume, rescaleCell, pinned, cfgRange,
      rnd0, oldX, yRepl, idFa, sgOne, eps8,
      show XState.WaitingForOptimization ≠ XState.Empty from by decide,
      show ¬("test" = "") from by decide,
      show "Randomly generated (" ++ "test" ++ ")" = "Randomly generated (test)"
        from by decide])

set_option maxHeartbeats 2000000 in
theorem checkXtalRest_preserves (cfg : Config)
    (fa : Cell → List Atom → Cell × List Atom) (z : Xtal) :
    (checkXtalRest cfg fa z).2.gen = z.gen ∧
    (checkXtalRest cfg fa z).2.parents = z.parents ∧
    (checkXtalRest cfg fa z).2.status = z.status := by
  unfold checkXtalRest rescaleCell
  dsimp only
  repeat' split
  all_goals exact ⟨rfl, rfl, rfl⟩

theorem checkXtal_preserves (cfg : Config)
    (fa : Cell → List Atom → Cell × List Atom) (x : Xtal) :
    (checkXtal cfg fa x).2.gen = x.gen ∧
    (checkXtal cfg fa x).2.parents = x.parents ∧
    (checkXtal cfg fa x).2.status = x.status := by
  unfold checkXtal
  dsimp only
  repeat' split
  all_goals first
    | exact ⟨rfl, rfl, rfl⟩
    | exact checkXtalRest_preserves cfg fa _

theorem generateRandomXtal_fields (cfg : Config) (rnd : RandomInput)
    (generation id : ℕ) (x0 : Xtal)
    (h : generateRandomXtal cfg rnd generation id = some x0) :
    x0.gen = generation ∧ x0.parents = "Randomly generated" ∧
    x0.status = XState.WaitingForOptimization := by
  unfold generateRandomXtal at h
  cases hp : rnd.placement with
  | none =>
      rw [hp] at h
      exact absurd h (by simp)
  | some atoms =>
      rw [hp] at h
      have hx := Option.some.inj h
      subst hx
      exact ⟨rfl, rfl, rfl⟩

theorem firstValidRandom_spec (cfg : Config)
    (fa : Cell → List Atom → Cell × List Atom) (generation id : ℕ)
    (rnds : List RandomInput) (x : Xtal)
    (h : firstValidRandom cfg fa generation id rnds = some x) :
    ∃ r ∈ rnds, ∃ x0, generateRandomXtal cfg r generation id = some x0 ∧
      checkXtal cfg fa x0 = (true, x) := by
  induction rnds with
  | nil => simp [firstValidRandom] at h
  | cons r rs ih =>
      unfold firstValidRandom at h
      cases hg : generateRandomXtal cfg r generation id with
      | none =>
          rw [hg] at h
          obtain ⟨r2, hr2, hx⟩ := ih h
          exact ⟨r2, List.mem_cons_of_mem r hr2, hx⟩
      | some x0 =>
          rw [hg] at h
          dsimp only at h
          by_cases hok : (checkXtal cfg fa x0).1 = true
          · rw [if_pos hok] at h
            refine ⟨r, List.mem_cons_self r rs, x0, hg, ?_⟩
            have h2 := Option.some.inj h
            rw [Prod.ext_iff]
            exact ⟨hok, h2⟩
          · rw [if_neg hok] at h
            obtain ⟨r2, hr2, hx⟩ := ih h
            exact ⟨r2, List.mem_cons_of_mem r hr2, hx⟩

/-- C9: with fewer than 3 optimized structures, `generateNewStructure_`
applies no genetic operator: it generates random candidates with generation 1
until one passes `checkXtal` and publishes the survivor through
`initializeAndAddXtal`; the published candidate originated from
`generateRandomXtal(1, 0)`, passed the check, and carries generation 1,
parents "Randomly generated" and status `WaitingForOptimization`. -/
theorem c9_few_optimized_random_branch (cfg : Config)
    (fa : Cell → List Atom → Cell × List Atom) (sgFn : Cell → List Atom → ℕ)
    (p_cross p_strip : ℚ) (store optimized : List Xtal)
    (rnds : List RandomInput) (gouts : List GeneticOutcome)
    (h : optimized.length < 3) :
    (generateNewStructureBody cfg fa sgFn p_cross p_strip store optimized rnds gouts =
      match firstValidRandom cfg fa 1 0 rnds with
      | none => GNSResult.exhausted
      | some x =>
          GNSResult.published none
            (initializeAndAddXtal cfg sgFn store x 1 x.parents).1
            (initializeAndAddXtal cfg sgFn store x 1 x.parents).2) ∧
    (∀ x, firstValidRandom cfg fa 1 0 rnds = some x →
      (∃ r ∈ rnds, ∃ x0, generateRandomXtal cfg r 1 0 = some x0 ∧
        checkXtal cfg fa x0 = (true, x)) ∧
      x.gen = 1 ∧ x.parents = "Randomly generated" ∧
      x.status = XState.WaitingForOptimization) := by
  constructor
  · unfold generateNewStructureBody
    rw [if_pos h]
  · intro x hx
    obtain ⟨r, hr, x0, hg, hchk⟩ := firstValidRandom_spec cfg fa 1 0 rnds x hx
    obtain ⟨hgen, hpar, hstat⟩ := generateRandomXtal_fields cfg r 1 0 x0 hg
    have hpres := checkXtal_preserves cfg fa x0
    rw [hchk] at hpres
    refine ⟨⟨r, hr, x0, hg, hchk⟩, ?_, ?_, ?_⟩
    · rw [← hpres.1] at hgen
      exact hgen
    · rw [← hpres.2.1] at hpar
      exact hpar
    · rw [← hpres.2.2] at hstat
      exact hstat

/-- Witness for C9 with an empty optimized population and the demo
random-generation oracle. -/
theorem c9_few_optimized_random_branch_witness :
    (generateNewStructureBody cfgRange idFa sgOne 15 35 [] [] [rnd0] [] =
      match firstValidRandom cfgRange idFa 1 0 [rnd0] with
      | none => GNSResult.exhausted
      | some x =>
          GNSResult.published none
            (initializeAndAddXtal cfgRange sgOne [] x 1 x.parents).1
            (initializeAndAddXtal cfgRange sgOne [] x 1 x.parents).2) ∧
    (∀ x, firstValidRandom cfgRange idFa 1 0 [rnd0] = some x →
      (∃ r ∈ [rnd0], ∃ x0, generateRandomXtal cfgRange r 1 0 = some x0 ∧
        checkXtal cfgRange idFa x0 = (true, x)) ∧
      x.gen = 1 ∧ x.parents = "Randomly generated" ∧
      x.status = XState.WaitingForOptimization) :=
  c9_few_optimized_random_branch cfgRange idFa sgOne 15 35 [] [] [rnd0] []
    (by decide)

/-- C5: for every session file whose `saveSuccessful` flag is absent or
false, `load` refuses: it returns false and adds no candidate to the
tracker. -/
theorem c5_refuse_unsuccessful_save (f : StateFile) (tracker : List Xtal)
    (h : f.saveSuccessful = none ∨ f.saveSuccessful = some false) :
    load f tracker = (false, tracker) := by
  unfold load
  rcases h with h | h <;>
    rw [h] <;> by_cases ho : f.openable <;> simp [ho]

/-- Witness for C5: a readable state file with the flag missing. -/
theorem c5_refuse_unsuccessful_save_witness :
    load ⟨true, none, [⟨true, false, none⟩]⟩ [] = (false, []) :=
  c5_refuse_unsuccessful_save ⟨true, none, [⟨true, false, none⟩]⟩ []
    (Or.inl rfl)

theorem noNL_getLast (s : Str) (h : noNL s) : s.getLast? ≠ some '\n' := by
  intro hc
  exact h (List.mem_of_mem_getLast? hc)

theorem trimNL_of_noNL (s : Str) (h : noNL s) : trimNL s = s := by
  unfold trimNL
  rw [if_neg (noNL_getLast s h)]

theorem trim_concat_line (pre ch : Str) (hch : noNL ch) (hne : ch ≠ []) :
    (trimNL ((pre ++ ch) ++ ['\n'])).getLast? ≠ some '\n' := by
  unfold trimNL
  rw [if_pos (List.getLast?_concat (pre ++ ch))]
  rw [List.dropLast_concat]
  rw [List.getLast?_append_of_ne_nil pre hne]
  exact noNL_getLast ch hch

theorem safeRep (line s : Str) (hline : line.getLast? ≠ some '\n')
    (hs : noNL s ∨ ∃ pre ch, s = (pre ++ ch) ++ ['\n'] ∧ noNL ch ∧ ch ≠ []) :
    (if s = [] then line else trimNL s).getLast? ≠ some '\n' := by
  by_cases h : s = []
  · rw [if_pos h]
    exact hline
  · rw [if_neg h]
    rcases hs with hs | ⟨pre, ch, rfl, hch, hchne⟩
    · rw [trimNL_of_noNL s hs]
      exact noNL_getLast s hs
    · exact trim_concat_line pre ch hch hchne

theorem linesJoin_safe {α : Type} (f : α → Str) (l : List α)
    (hf : ∀ t ∈ l, ∃ ch, f t = ch ++ ['\n'] ∧ noNL ch ∧ ch ≠ []) :
    noNL (l.map f).flatten ∨
      ∃ pre ch, (l.map f).flatten = (pre ++ ch) ++ ['\n'] ∧ noNL ch ∧ ch ≠ [] := by
  rcases l.eq_nil_or_concat' with rfl | ⟨init, la, rfl⟩
  · left
    simp only [List.map_nil, List.flatten_nil]
    exact List.not_mem_nil _
  · right
    obtain ⟨ch, hfla, hch, hchne⟩ := hf la (by simp)
    refine ⟨(init.map f).flatten, ch, ?_, hch, hchne⟩
    simp [hfla, List.append_assoc]

theorem noNL_tabRow (row : List Str) (h : ∀ e ∈ row, noNL e) :
    noNL (tabRow row) := by
  unfold tabRow
  simp only [noNL, List.mem_flatten, List.mem_map, not_exists, not_and]
  rintro piece ⟨e, he, rfl⟩ hmem
  rcases List.mem_append.mp hmem with hmem | hmem
  · exact h e he hmem
  · simp at hmem

theorem tabRow_ne_nil (row : List Str) (h : row ≠ []) : tabRow row ≠ [] := by
  unfold tabRow
  cases row with
  | nil => exact absurd rfl h
  | cons e es => simp

theorem noNL_vecRep (m : List (List Str)) (k : ℕ)
    (h : ∀ row ∈ m, row ≠ [] ∧ ∀ e ∈ row, noNL e) : noNL (vecRep m k) := by
  unfold vecRep
  by_cases hk : k < m.length
  · have hrow : m.getD k [] ∈ m := by
      rw [List.getD_eq_getElem?_getD, List.getElem?_eq_getElem hk]
      exact List.getElem_mem hk
    exact noNL_tabRow _ (h _ hrow).2
  · have hnil : m.getD k [] = [] := by
      rw [List.getD_eq_getElem?_getD, List.getElem?_eq_none (by omega)]
      rfl
    rw [hnil]
    unfold tabRow
    simp only [List.map_nil, List.flatten_nil]
    exact List.not_mem_nil _

theorem noNL_spaceRow (row : List Str) (h : ∀ e ∈ row, noNL e) :
    noNL ((row.map fun e => e ++ [' ']).flatten) := by
  simp only [noNL, List.mem_flatten, List.mem_map, not_exists, not_and]
  rintro piece ⟨e, he, rfl⟩ hmem
  rcases List.mem_append.mp hmem with hmem | hmem
  · exact h e he hmem
  · simp at hmem

theorem spaceRow_ne_nil (row : List Str) (h : row ≠ []) :
    (row.map fun e => e ++ [' ']).flatten ≠ [] := by
  cases row with
  | nil => exact absurd rfl h
  | cons e es => simp

set_option maxHeartbeats 4000000 in
theorem kwRep_safe (env : TemplateEnv) (henv : envNoNL env) (line : Str) :
    noNL (kwRep env line) ∨
      ∃ pre ch, kwRep env line = (pre ++ ch) ++ ['\n'] ∧ noNL ch ∧ ch ≠ [] := by
  obtain ⟨h1, h2, h3, h4, h5, h6, h7, h8, h9, h10, hat, hmat, hmatB, hfn,
    hcnt, hcrd, hgen, hid⟩ := henv
  have hsp : ¬ (('\n' : Char) = ' ') := by decide
  unfold kwRep
  by_cases e1 : line = "a".toList
  · rw [if_pos e1]
    exact Or.inl h1
  rw [if_neg e1]
  by_cases e2 : line = "b".toList
  · rw [if_pos e2]
    exact Or.inl h2
  rw [if_neg e2]
  by_cases e3 : line = "c".toList
  · rw [if_pos e3]
    exact Or.inl h3
  rw [if_neg e3]
  by_cases e4 : line = "alphaRad".toList
  · rw [if_pos e4]
    exact Or.inl h4
  rw [if_neg e4]
  by_cases e5 : line = "betaRad".toList
  · rw [if_pos e5]
    exact Or.inl h5
  rw [if_neg e5]
  by_cases e6 : line = "gammaRad".toList
  · rw [if_pos e6]
    exact Or.inl h6
  rw [if_neg e6]
  by_cases e7 : line = "alphaDeg".toList
  · rw [if_pos e7]
    exact Or.inl h7
  rw [if_neg e7]
  by_cases e8 : line = "betaDeg".toList
  · rw [if_pos e8]
    exact Or.inl h8
  rw [if_neg e8]
  by_cases e9 : line = "gammaDeg".toList
  · rw [if_pos e9]
    exact Or.inl h9
  rw [if_neg e9]
  by_cases e10 : line = "volume".toList
  · rw [if_pos e10]
    exact Or.inl h10
  rw [if_neg e10]
  by_cases e11 : line = "coordsFrac".toList
  · rw [if_pos e11]
    unfold coordsFracRep
    refine linesJoin_safe _ env.atoms ?_
    intro t ht
    obtain ⟨ha, hb, hc, hd, he⟩ := hat t ht
    refine ⟨t.symS ++ [' '] ++ t.xS ++ [' '] ++ t.yS ++ [' '] ++ t.zS,
      by simp [List.append_assoc], ?_, by simp⟩
    simp only [noNL] at *
    simp [List.mem_append, List.mem_cons, ha, hc, hd, he, hsp]
  rw [if_neg e11]
  by_cases e12 : line = "coordsFracId".toList
  · rw [if_pos e12]
    unfold coordsFracIdRep
    refine linesJoin_safe _ env.atoms ?_
    intro t ht
    obtain ⟨ha, hb, hc, hd, he⟩ := hat t ht
    refine ⟨t.symS ++ [' '] ++ t.numS ++ [' '] ++ t.xS ++ [' '] ++ t.yS
        ++ [' '] ++ t.zS, by simp [List.append_assoc], ?_, by simp⟩
    simp only [noNL] at *
    simp [List.mem_append, List.mem_cons, ha, hb, hc, hd, he, hsp]
  rw [if_neg e12]
  by_cases e13 : line = "cellMatrixAngstrom".toList
  · rw [if_pos e13]
    unfold matrixRep
    refine linesJoin_safe _ env.cellMat ?_
    intro row hrow
    exact ⟨tabRow row, rfl, noNL_tabRow row (hmat row hrow).2,
      tabRow_ne_nil row (hmat row hrow).1⟩
  rw [if_neg e13]
  by_cases e14 : line = "cellVector1Angstrom".toList
  · rw [if_pos e14]
    exact Or.inl (noNL_vecRep env.cellMat 0 hmat)
  rw [if_neg e14]
  by_cases e15 : line = "cellVector2Angstrom".toList
  · rw [if_pos e15]
    exact Or.inl (noNL_vecRep env.cellMat 1 hmat)
  rw [if_neg e15]
  by_cases e16 : line = "cellVector3Angstrom".toList
  · rw [if_pos e16]
    exact Or.inl (noNL_vecRep env.cellMat 2 hmat)
  rw [if_neg e16]
  by_cases e17 : line = "cellMatrixBohr".toList
  · rw [if_pos e17]
    unfold matrixRep
    refine linesJoin_safe _ env.cellMatBohr ?_
    intro row hrow
    exact ⟨tabRow row, rfl, noNL_tabRow row (hmatB row hrow).2,
      tabRow_ne_nil row (hmatB row hrow).1⟩
  rw [if_neg e17]
  by_cases e18 : line = "cellVector1Bohr".toList
  · rw [if_pos e18]
    exact Or.inl (noNL_vecRep env.cellMatBohr 0 hmatB)
  rw [if_neg e18]
  by_cases e19 : line = "cellVector2Bohr".toList
  · rw [if_pos e19]
    exact Or.inl (noNL_vecRep env.cellMatBohr 1 hmatB)
  rw [if_neg e19]
  by_cases e20 : line = "cellVector3Bohr".toList
  · rw [if_pos e20]
    exact Or.inl (noNL_vecRep env.cellMatBohr 2 hmatB)
  rw [if_neg e20]
  by_cases e21 : line = "POSCAR".toList
  · rw [if_pos e21]
    right
    unfold poscarRep poscarCoordsRep
    rcases env.poscarCoords.eq_nil_or_concat' with hv | ⟨init, la, hv⟩
    · refine ⟨env.fileNameS ++ ['\n'] ++ "1".toList ++ ['\n']
          ++ poscarVecsRep env.cellMat ++ poscarCountsRep env.poscarCounts,
        "Direct".toList, ?_, by decide, by decide⟩
      rw [hv]
      simp [List.append_assoc]
    · obtain ⟨hx, hy, hz⟩ := hcrd la (by rw [hv]; simp)
      refine ⟨env.fileNameS ++ ['\n'] ++ "1".toList ++ ['\n']
          ++ poscarVecsRep env.cellMat ++ poscarCountsRep env.poscarCounts
          ++ "Direct".toList ++ ['\n']
          ++ ((init.map fun t =>
                t.xS ++ [' '] ++ t.yS ++ [' '] ++ t.zS ++ [' '] ++ ['\n']).flatten),
        la.xS ++ [' '] ++ la.yS ++ [' '] ++ la.zS ++ [' '], ?_, ?_, by simp⟩
      · rw [hv]
        simp [List.append_assoc]
      · simp only [noNL] at *
        simp [List.mem_append, List.mem_cons, hx, hy, hz, hsp]
  rw [if_neg e21]
  exact Or.inl (List.not_mem_nil _)

theorem interpretKeywordXtal_safe (env : TemplateEnv) (henv : envNoNL env)
    (line : Str) (hline : line.getLast? ≠ some '\n') :
    (interpretKeywordXtal env line).getLast? ≠ some '\n' := by
  unfold interpretKeywordXtal
  exact safeRep line _ hline (kwRep_safe env henv line)

theorem interpretKeywordBase_safe (env : TemplateEnv) (henv : envNoNL env)
    (line : Str) (hline : line.getLast? ≠ some '\n') :
    (interpretKeywordBase env line).getLast? ≠ some '\n' := by
  unfold interpretKeywordBase
  refine safeRep line _ hline (Or.inl ?_)
  unfold baseKwRep
  split_ifs
  · exact henv.2.2.2.2.2.2.2.2.2.2.2.2.2.2.2.2.1
  · exact henv.2.2.2.2.2.2.2.2.2.2.2.2.2.2.2.2.2
  · exact List.not_mem_nil _

theorem expandSeg_safe (env : TemplateEnv) (henv : envNoNL env) (s : Str)
    (hs : s.getLast? ≠ some '\n') :
    (expandSeg env s).getLast? ≠ some '\n' := by
  unfold expandSeg
  exact interpretKeywordXtal_safe env henv _
    (interpretKeywordBase_safe env henv s hs)

theorem expandSeg_unrecognized (env : TemplateEnv) (s : Str)
    (h : s ∉ recognizedKeywords) : expandSeg env s = s := by
  simp only [recognizedKeywords, List.mem_cons, List.not_mem_nil, or_false,
    not_or] at h
  obtain ⟨g1, g2, g3, g4, g5, g6, g7, g8, g9, g10, g11, g12, g13, g14, g15,
    g16, g17, g18, g19, g20, g21, g22, g23⟩ := h
  have hbase : interpretKeywordBase env s = s := by
    unfold interpretKeywordBase baseKwRep
    rw [if_neg g22, if_neg g23]
    rw [if_pos rfl]
  have hxtal : kwRep env s = [] := by
    unfold kwRep
    rw [if_neg g1, if_neg g2, if_neg g3, if_neg g4, if_neg g5, if_neg g6,
      if_neg g7, if_neg g8, if_neg g9, if_neg g10, if_neg g11, if_neg g12,
      if_neg g13, if_neg g14, if_neg g15, if_neg g16, if_neg g17, if_neg g18,
      if_neg g19, if_neg g20, if_neg g21]
  unfold expandSeg
  rw [hbase]
  unfold interpretKeywordXtal
  rw [hxtal]
  rw [if_pos rfl]

theorem interpretLoop_eq_map (env : TemplateEnv) (ls : List Str) :
    interpretLoop env ls = ls.map (expandSeg env) := by
  induction ls with
  | nil => rfl
  | cons l ls ih =>
      unfold interpretLoop
      rw [ih]
      by_cases h : expandSeg env l = l
      · simp [h]
      · simp [h]

/-- C6: in template expansion every segment not in the recognized keyword
set passes through unchanged, every recognized keyword's expansion has its
trailing newline trimmed (it never ends in a newline when the formatted
inputs are newline-free), and the result is the processed segments joined
with the empty separator with a single newline appended. -/
theorem c6_template_expansion (env : TemplateEnv) (t : Str)
    (henv : envNoNL env) :
    interpretTemplate env t
      = ((splitOnChar '%' t).map (expandSeg env)).flatten ++ ['\n'] ∧
    (∀ s, s ∉ recognizedKeywords → expandSeg env s = s) ∧
    (∀ s ∈ recognizedKeywords, (expandSeg env s).getLast? ≠ some '\n') := by
  refine ⟨?_, ?_, ?_⟩
  · unfold interpretTemplate
    rw [interpretLoop_eq_map]
  · exact fun s hs => expandSeg_unrecognized env s hs
  · intro s hs
    refine expandSeg_safe env henv s ?_
    have hall : ∀ s2 ∈ recognizedKeywords, s2.getLast? ≠ some '\n' := by decide
    exact hall s hs

/-- Witness for C6 with a concrete newline-free environment and the template
`"a %a% b"`. -/
theorem c6_template_expansion_witness :
    interpretTemplate env0 ("a %a% b".toList)
      = ((splitOnChar '%' ("a %a% b".toList)).map (expandSeg env0)).flatten
          ++ ['\n'] ∧
    (∀ s, s ∉ recognizedKeywords → expandSeg env0 s = s) ∧
    (∀ s ∈ recognizedKeywords, (expandSeg env0 s).getLast? ≠ some '\n') :=
  c6_template_expansion env0 ("a %a% b".toList)
    (by refine ⟨?_, ?_, ?_, ?_, ?_, ?_, ?_, ?_, ?_, ?_, ?_, ?_, ?_, ?_,
          ?_, ?_, ?_, ?_⟩ <;> decide)

end XtalOpt
